import Mathlib

/-!
Verification of the ml-ensemble documentation repository's tutorial scripts
(`info/_downloads/layer.py`, `info/_downloads/parallel.py`,
`info/source/tutorials_source/layer.py`,
`info/source/tutorials_source/learner.py`).

The scripts are example drivers against the external `mlens` package. We
embed (a) the code that is actually present in the scripts (the `Error`
transformer, `error_scorer`, the import/definition structure, the call
sites, the final context-manager snippet), and (b) where a claim concerns
behavior of the external library that the tutorial prose and the spec
describe, a model whose doc comment starts `Modelled from the spec:`.
-/

namespace MLEnsembleDocs

/-! ### The `Error` transformer of `info/_downloads/parallel.py` (lines 80-95)

Arrays are embedded as lists of integers; elementwise operations on numpy
arrays become `List.zipWith`. -/

/-- `def error_scorer(p, y): return np.abs(p - y)` —
elementwise absolute error of predictions `p` against targets `y`. -/
def error_scorer (p y : List Int) : List Int :=
  List.zipWith (fun a b => |a - b|) p y

/-- `class Error(BaseEstimator, TransformerMixin)`: holds only the
`scorer` set in `__init__`. -/
structure Error where
  scorer : List Int → List Int → List Int

/-- `def fit(self, X, y): return self` -/
def Error.fit (e : Error) (_X _y : List Int) : Error := e

/-- `def transform(self, X, y): return self.scorer(X, y), y` -/
def Error.transform (e : Error) (X y : List Int) : List Int × List Int :=
  (e.scorer X y, y)

/-! ### Import and definition structure of the four scripts -/

/-- A Python source file of this repository, reduced to the names it
imports from the `mlens` package, the names it imports from elsewhere,
and the names of the functions and classes it defines itself. -/
structure PyFile where
  mlensImports : List String
  otherImports : List String
  localDefs : List String
deriving DecidableEq

/-- `info/_downloads/layer.py`: imports at lines 42-44, 56, 146, 198;
defines no function or class of its own. -/
def layerDownloads : PyFile :=
  { mlensImports := ["Layer", "Group", "make_group", "run", "OLS", "Scale",
      "FoldIndex", "BlendIndex", "rmse"]
    otherImports := ["numpy"]
    localDefs := [] }

/-- `info/_downloads/parallel.py`: imports at lines 42-46, 75-77; defines
the helper `error_scorer` (line 80) and the class `Error` (line 84). -/
def parallelDownloads : PyFile :=
  { mlensImports := ["ParallelProcessing", "Job", "Learner", "FoldIndex",
      "OLS", "Transformer", "Pipeline", "Scale"]
    otherImports := ["numpy", "BaseEstimator", "TransformerMixin"]
    localDefs := ["error_scorer", "Error"] }

/-- `info/source/tutorials_source/learner.py`: imports at lines 42-44, 65-66,
181, 246-247, 313, 330; defines the helpers `mse` (line 183) and the local
`run` used with the thread pool (line 315). -/
def learnerTutorial : PyFile :=
  { mlensImports := ["OLS", "Learner", "Job", "FoldIndex", "SubsetIndex",
      "Scale", "Transformer", "Pipeline", "run"]
    otherImports := ["os", "tempfile", "numpy", "Pool"]
    localDefs := ["mse", "run"] }

/-- `info/source/tutorials_source/layer.py`: a stub that only imports
`Layer` from `mlens.parallel` (line 32). -/
def layerTutorial : PyFile :=
  { mlensImports := ["Layer"]
    otherImports := []
    localDefs := [] }

/-- The four supplied source files. -/
def srcFiles : List PyFile :=
  [layerDownloads, parallelDownloads, learnerTutorial, layerTutorial]

/-! ### Call sites on the external library

Each invocation of an `mlens` function or of a method on an `mlens` object
in the scripts, transcribed as the bare operation name (constructor calls
and calls to locally defined helpers are not operations of the library). -/

/-- Library operations invoked by `info/_downloads/layer.py`:
`make_group` (lines 48, 75, 93, 109, 131-132, 149-150, 173, 185, 201),
`run` (lines 68, 80, 102, 115, 138, 155, 183, 189, 210) and
`layer.push` (lines 174, 186, 208). -/
def layerDownloadsOps : List String := ["make_group", "run", "push"]

/-- Library operations invoked by `info/_downloads/parallel.py`:
`manager.map` (line 60), `manager.stack` (lines 129, 206, 207),
`manager.initialize` (line 153), `manager.process` (line 169) and
`manager.clear` (line 189). -/
def parallelDownloadsOps : List String :=
  ["map", "stack", "initialize", "process", "clear"]

/-- Library operations invoked by
`info/source/tutorials_source/learner.py`: `learner.setup` (lines 75, 114,
143, 195, 276) and `transformer.setup` (line 275), `learner.gen_fit`
(line 78), `sub_learner.fit` (lines 79, 197), `learner.collect`
(lines 89, 202, 287) and `transformer.collect` (line 286),
`learner.gen_transform` (line 115), `sub_learner.transform` (line 116),
`job.args` (lines 144, 196, 280, 283, 317), `learner.get_params`
(lines 156, 161), `learner.set_params` (line 158) and `run`
(line 333). -/
def learnerTutorialOps : List String :=
  ["setup", "gen_fit", "fit", "collect", "gen_transform", "transform",
   "args", "get_params", "set_params", "run"]

/-- All library operations invoked across the supplied scripts
(`info/source/tutorials_source/layer.py` invokes none). -/
def allScriptOps : List String :=
  layerDownloadsOps ++ parallelDownloadsOps ++ learnerTutorialOps

/-- The fixed call surface named in the spec: `run`, `manager.map`,
`manager.stack`, `manager.initialize`, `manager.process`,
`manager.clear`, `learner.setup`, `learner.collect`,
`get_params`/`set_params`. -/
def specCallSurface : List String :=
  ["run", "map", "stack", "initialize", "process", "clear",
   "setup", "collect", "get_params", "set_params"]

/-- The core types of the documented library named by the scripts:
`Layer`, `Group`, `Learner`, `Transformer`, `ParallelProcessing`, `Job`,
`Pipeline` and the indexers. -/
def coreTypeNames : List String :=
  ["Layer", "Group", "Learner", "Transformer", "ParallelProcessing",
   "Job", "Pipeline", "FoldIndex", "BlendIndex", "SubsetIndex"]

/-! ### The closing context-manager example of `info/_downloads/parallel.py` -/

/-- A Python statement of the tail of `parallel.py`, reduced to what it
binds and whom it calls. -/
inductive PyStmt where
  | assignName (name : String)
  | methodCall (recv meth : String)
  | withEnter (boundName : String)
  | withExit (boundName : String)
deriving DecidableEq

/-- The tail of `info/_downloads/parallel.py` (lines 189 and 203-207):
`manager.clear()`; `learner = Learner(...)`;
`with ParallelProcessing() as mananger:` followed by
`manager.stack(learner, 'fit', X, y, split=False)` and
`out = manager.stack(learner, 'predict', X, split=False)`. -/
def parallelTailStmts : List PyStmt :=
  [PyStmt.methodCall "manager" "clear",
   PyStmt.assignName "learner",
   PyStmt.withEnter "mananger",
   PyStmt.methodCall "manager" "stack",
   PyStmt.methodCall "manager" "stack",
   PyStmt.withExit "mananger"]

/-- The method calls of the with-block body: the statements strictly
between the `withEnter` and the `withExit`. -/
def withBodyCalls (stmts : List PyStmt) : List (String × String) :=
  ((stmts.dropWhile (fun s => !(s matches PyStmt.withEnter _))).drop 1
    |>.takeWhile (fun s => !(s matches PyStmt.withExit _)))
    |>.filterMap (fun s => match s with
      | PyStmt.methodCall r m => some (r, m)
      | _ => none)

/-- The receivers called anywhere in a statement list. -/
def calledReceivers (stmts : List PyStmt) : List String :=
  stmts.filterMap (fun s => match s with
    | PyStmt.methodCall r _ => some r
    | _ => none)

/-! ### Model of the `Layer`/`Group` fit-before-predict protocol -/

/-- Modelled from the spec: the `mlens.parallel.Group` class is not in the
supplied files. The tutorials describe a group only as a wrapper around an
`indexer-transformers-estimators` triplet that is unfitted when created;
the model keeps the one observable the claims need, whether the group's
estimators have been fitted. -/
structure Group where
  fitted : Bool
deriving DecidableEq

/-- Modelled from the spec: the `mlens.parallel.Layer` class is not in the
supplied files. "A layer is a handle that will run any number of Group
instances attached to it", holding them on its `stack`. -/
structure Layer where
  stack : List Group
deriving DecidableEq

/-- Modelled from the spec: `make_group(indexer, estimators, transformers)`
is not in the supplied files; it returns a new, unfitted group for the
given indexer (here reduced to its fold count). -/
def make_group (_indexerFolds : Nat) : Group :=
  { fitted := false }

/-- Modelled from the spec: "you can instantiate a layer and `push` and
`pop` to its `stack`" — `push` attaches a further group to the stack. -/
def Layer.push (l : Layer) (g : Group) : Layer :=
  { stack := l.stack ++ [g] }

/-- Modelled from the spec: the `mlens.parallel.run` function is not in
the supplied files. `run(layer, 'fit', X, y)` fits every group on the
stack; "if you push or pop to the stack, you must call `fit` before you
can use the layer for prediction", so `run(layer, 'predict', X, y)` raises
(returns `Except.error`) unless every group on the stack is fitted. -/
def run (layer : Layer) (job : String) (_X : List (List Int))
    (_y : List Int) : Except String Layer :=
  if job = "fit" then
    Except.ok { stack := layer.stack.map (fun _ => { fitted := true }) }
  else if layer.stack.all (fun g => g.fitted) then
    Except.ok layer
  else
    Except.error "layer is not fitted"

/-- `X = np.arange(20).reshape(10, 2)`, shared by all three scripts. -/
def arangeX : List (List Int) :=
  [[0,1],[2,3],[4,5],[6,7],[8,9],[10,11],[12,13],[14,15],[16,17],[18,19]]

/-- The layer built by `info/_downloads/layer.py` lines 172-183:
`layer = Layer()`, `layer.push(make_group(FoldIndex(4), OLS(), None))`,
`run(layer, 'fit', X, y)`. -/
def layerAfterFit (y : List Int) : Layer :=
  let layer : Layer := { stack := [] }
  let layer := layer.push (make_group 4)
  match run layer "fit" arangeX y with
  | Except.ok l => l
  | Except.error _ => layer

/-- The layer after line 186 of `info/_downloads/layer.py`: a further
unfitted group `make_group(FoldIndex(2), OLS(1), None)` is pushed onto the
fitted layer. -/
def layerAfterFitThenPush (y : List Int) : Layer :=
  (layerAfterFit y).push (make_group 2)

/-- The try/except at lines 188-191 of `info/_downloads/layer.py`: the
`run(layer, 'predict', X, y)` call is attempted; an exception is caught
and printed as `"Error: %s"`, so the script continues either way. The
result is the printed lines and whether the script completed normally. -/
def layerPushSnippet (y : List Int) : List String × Bool :=
  match run (layerAfterFitThenPush y) "predict" arangeX y with
  | Except.ok _ => ([], true)
  | Except.error e => (["Error: " ++ e], true)

/-! ### Model of `Learner.gen_fit` and the fit cache -/

/-- Modelled from the spec: the `SubLearner` nodes spawned by
`Learner.gen_fit` are not in the supplied files; each carries the
learner's name, its assigned output column and a fold identifier. -/
structure SubLearner where
  name : String
  colId : Nat
  foldId : Nat
deriving DecidableEq

/-- The cache key of a fitted estimator: "these are named as
`[name].[col_id].[fold_id]`". -/
def SubLearner.cacheKey (s : SubLearner) : String :=
  s.name ++ "." ++ toString s.colId ++ "." ++ toString s.foldId

/-- Modelled from the spec: `Learner.gen_fit` is not in the supplied
files. After `setup`, it generates one sub-learner fitted on the full
dataset (fold id `0`) and one per cross-validation fold of the indexer. -/
def gen_fit (name : String) (colId folds : Nat) : List SubLearner :=
  { name := name, colId := colId, foldId := 0 } ::
    (List.range folds).map
      (fun i => { name := name, colId := colId, foldId := i + 1 })

/-- Modelled from the spec: `sub_learner.fit(path)` fits the sub-learner's
estimator and appends it to the cache `path` under its cache key. -/
def SubLearner.fitToCache (path : List String) (s : SubLearner) :
    List String :=
  path ++ [s.cacheKey]

/-- The loop of `info/source/tutorials_source/learner.py` lines 72-79:
`path = []`, then `sub_learner.fit(path)` for every sub-learner of
`gen_fit` for the learner named `'ols'` with `FoldIndex(folds=2)`. -/
def olsFitCache : List String :=
  (gen_fit "ols" 0 2).foldl SubLearner.fitToCache []

/-! ### Model of the `ParallelProcessing` cache and backends -/

/-- Modelled from the spec: the `mlens.parallel.ParallelProcessing`
manager is not in the supplied files; for the cache claims it is reduced
to the list of files currently under the cache path it was given. -/
structure ParallelProcessing where
  cacheFiles : List String
deriving DecidableEq

/-- Modelled from the spec: "The `clear` method will remove any files in
the specified path. If the path specified ... includes files other than
those generated in the `process` call, these will ALSO be removed." -/
def ParallelProcessing.clear (_m : ParallelProcessing) :
    ParallelProcessing :=
  { cacheFiles := [] }

/-- Modelled from the spec: used "as context manager, automatically
cleaning up the cache when exiting the context" — the body runs on the
manager, and `clear` is applied on exit. -/
def withParallelProcessing (m : ParallelProcessing)
    (body : ParallelProcessing → ParallelProcessing) : ParallelProcessing :=
  (body m).clear

/-- The two execution backends named by the tutorials. -/
inductive Backend where
  | threading
  | multiprocessing
deriving DecidableEq

/-- Where `initialize` leaves the job's input data. -/
inductive DataLocation where
  | parentProcess
  | memmap
  | serialized
deriving DecidableEq

/-- Modelled from the spec: `manager.initialize` is not in the supplied
files. "If the backend of the manger is `threading`, keeping the data on
the parent process is sufficient for workers to reach it. With
`multiprocessing` as the backend, data will be memory-mapped to avoid
serialization." -/
def jobDataLocation : Backend → DataLocation
  | Backend.threading => DataLocation.parentProcess
  | Backend.multiprocessing => DataLocation.memmap

/-- Whether the backend's workers share the parent process's memory:
thread-pool workers do, process-pool workers do not. -/
def sharesParentMemory : Backend → Bool
  | Backend.threading => true
  | Backend.multiprocessing => false

/-- Whether a worker of the given backend can reach data at the given
location: data on the parent process is reachable exactly when the
workers share the parent's memory; memory-mapped or serialized data is
reachable from any worker. -/
def workerCanReach (b : Backend) : DataLocation → Bool
  | DataLocation.parentProcess => sharesParentMemory b
  | DataLocation.memmap => true
  | DataLocation.serialized => true

/-! ### Model of the scripts' use of numpy's global random state -/

/-- Modelled from the spec: numpy's global random generator is not in the
supplied files; it is reduced to an abstract state, seeded either
explicitly or from the process's start-up entropy. -/
structure NumpyRandom where
  state : Nat
deriving DecidableEq

/-- Modelled from the spec: `np.random.seed(n)` puts the global generator
into the state determined by `n` alone. -/
def npRandomSeed (n : Nat) : NumpyRandom :=
  { state := n }

/-- Modelled from the spec: `np.random.rand(count)` draws `count` values
determined by the generator's state; distinct states give distinct
draws. -/
def npRandomRand (g : NumpyRandom) (count : Nat) : List Nat :=
  (List.range count).map (fun i => g.state + i)

/-- `info/_downloads/layer.py` lines 58-61: `np.random.seed(2)` then
`y = np.random.rand(10)` — the start-up entropy is never consulted. -/
def layerScriptY (_entropy : Nat) : List Nat :=
  npRandomRand (npRandomSeed 2) 10

/-- `info/_downloads/parallel.py` lines 48-51: `np.random.seed(2)` then
`y = np.random.rand(10)` — the start-up entropy is never consulted. -/
def parallelScriptY (_entropy : Nat) : List Nat :=
  npRandomRand (npRandomSeed 2) 10

/-- `info/source/tutorials_source/learner.py` line 69:
`y = np.random.rand(10)` with no preceding seed, so the draw reads the
generator state the process started with. -/
def learnerScriptY (entropy : Nat) : List Nat :=
  npRandomRand { state := entropy } 10

/-! ### Model of the zero-padded output array for heterogeneous indexers -/

/-- Modelled from the spec: the output-allocation logic of
`run(layer, 'fit', X, y, return_preds=True)` is not in the supplied
files. "If indexing strategies do not return the same number of rows, the
output array will be zero-padded", and indexers "preserve row indexing to
ensure predictions are consistently mapped to their respective input".
A column of `preds` rows is padded with zeros up to `rows`. -/
def paddedColumn (rows : Nat) (preds : List Int) : List Int :=
  (List.range rows).map (fun r => preds.getD r 0)

/-- The number of rows of the output array: the largest row count any
group's indexer returns. -/
def outputRows (cols : List (List Int)) : Nat :=
  cols.foldr (fun c acc => max c.length acc) 0

/-- The output array over all groups' prediction columns, each column
zero-padded to the common row count. -/
def paddedOutput (cols : List (List Int)) : List (List Int) :=
  cols.map (paddedColumn (outputRows cols))

/-- Every column's row count is bounded by `outputRows`. -/
theorem length_le_outputRows (cols : List (List Int)) (c : List Int)
    (hc : c ∈ cols) : c.length ≤ outputRows cols := by
  induction cols with
  | nil => cases hc
  | cons d ds ih =>
      simp only [List.mem_cons] at hc
      rcases hc with rfl | h
      · exact le_max_left _ _
      · exact le_trans (ih h) (le_max_right _ _)

/-- `C2` — None of the core types the scripts use (`Layer`, `Group`,
`Learner`, `Transformer`, `ParallelProcessing`, `Job`, `Pipeline`, the
indexers) is defined in the supplied source files: each such name is
absent from every file's local definitions, is imported from `mlens` in
some file, and every file that does import it imports it from `mlens`;
the files' own definitions are only the small local helpers
`error_scorer`, `Error`, `mse` and `run`. -/
theorem core_types_only_imported :
    (coreTypeNames.all (fun n =>
      (srcFiles.all (fun f => !(f.localDefs.contains n))) &&
      (srcFiles.any (fun f => f.mlensImports.contains n)) &&
      (srcFiles.all (fun f => !(f.otherImports.contains n))))) = true ∧
    (srcFiles.all (fun f =>
      f.localDefs.all (fun n =>
        ["error_scorer", "Error", "mse", "run"].contains n))) = true := by
  decide

/-- `C10` — the `Error` transformer is stateless: for every scorer `s` and
all inputs `X`, `y`, `fit` returns the instance unchanged and `transform`
returns `(s X y, y)`; instantiated with `error_scorer`, `transform` pairs
the elementwise absolute error `|X - y|` with the unchanged targets. -/
theorem Error_stateless (s : List Int → List Int → List Int)
    (X y : List Int) :
    (Error.mk s).fit X y = Error.mk s ∧
    (Error.mk s).transform X y = (s X y, y) ∧
    (Error.mk error_scorer).transform X y =
      (List.zipWith (fun a b => |a - b|) X y, y) := by
  refine ⟨rfl, rfl, ?_⟩
  simp [Error.transform, error_scorer]

/-- `C1` — for every fitted layer (every group on its stack fitted) that
has a new, unfitted group pushed onto its stack, and any inputs `X`, `y`,
`run(layer, 'predict', X, y)` raises (an `Except.error`), while the layer
before the push predicts fine; in the tutorial the exception is caught
and its message printed, and the script completes normally. -/
theorem predict_after_push_raises (layer : Layer) (g : Group)
    (X : List (List Int)) (y : List Int)
    (hfit : layer.stack.all (fun gr => gr.fitted) = true)
    (hg : g.fitted = false) :
    run (layer.push g) "predict" X y =
      Except.error "layer is not fitted" ∧
    run layer "predict" X y = Except.ok layer ∧
    layerPushSnippet y = (["Error: layer is not fitted"], true) := by
  refine ⟨?_, ?_, rfl⟩
  · simp [run, Layer.push, List.all_append, hfit, hg]
  · simp [run, hfit]

/-- Witness for `C1` at the one-group fitted layer, an unfitted pushed
group and the tutorial's `X`: predict errors after the push, succeeded
before it, and the tutorial snippet prints the caught message. -/
theorem predict_after_push_raises_witness :
    run (Layer.push (Layer.mk [Group.mk true]) (Group.mk false))
      "predict" arangeX [] = Except.error "layer is not fitted" ∧
    run (Layer.mk [Group.mk true]) "predict" arangeX [] =
      Except.ok (Layer.mk [Group.mk true]) ∧
    layerPushSnippet [] = (["Error: layer is not fitted"], true) :=
  predict_after_push_raises (Layer.mk [Group.mk true]) (Group.mk false)
    arangeX [] (by decide) (by decide)

/-- `C3` — running `sub_learner.fit(path)` for every sub-learner generated
by `gen_fit` for the learner named `'ols'` with `FoldIndex(folds=2)`
places exactly three fitted estimators in the cache — one per fold plus
one for the full dataset — each keyed as `[name].[col_id].[fold_id]`. -/
theorem gen_fit_cache_three_items :
    olsFitCache.length = 3 ∧
    olsFitCache =
      [SubLearner.cacheKey { name := "ols", colId := 0, foldId := 0 },
       SubLearner.cacheKey { name := "ols", colId := 0, foldId := 1 },
       SubLearner.cacheKey { name := "ols", colId := 0, foldId := 2 }] ∧
    olsFitCache = ["ols.0.0", "ols.0.1", "ols.0.2"] := by
  decide

/-- `C4` counterexample — the claim that the scripts call no library
operation outside the fixed surface is false: `learner.gen_fit` is
invoked at line 78 of `info/source/tutorials_source/learner.py` yet is
not in the surface. -/
theorem call_surface_not_exhaustive :
    "gen_fit" ∈ allScriptOps ∧ "gen_fit" ∉ specCallSurface := by
  decide

/-- `C4` (amended) — the scripts invoke every operation of the fixed call
surface, but the surface is not exhaustive: they additionally invoke
`make_group`, `layer.push`, `learner.gen_fit`, `learner.gen_transform`,
`sub_learner.fit`, `sub_learner.transform` and `job.args`. -/
theorem call_surface_invoked_plus_extras :
    (specCallSurface.all (fun op => allScriptOps.contains op)) = true ∧
    (["make_group", "push", "gen_fit", "gen_transform", "fit",
      "transform", "args"].all
      (fun op =>
        allScriptOps.contains op && !(specCallSurface.contains op))) =
      true := by
  decide

/-- `C5` — `clear` empties the cache path entirely, foreign files
included, and a `ParallelProcessing` used as a context manager has its
cache cleared on exit, whatever the body did. -/
theorem clear_removes_all_files (generated foreign : List String)
    (m : ParallelProcessing)
    (body : ParallelProcessing → ParallelProcessing) :
    (ParallelProcessing.clear
      { cacheFiles := generated ++ foreign }).cacheFiles = [] ∧
    (withParallelProcessing m body).cacheFiles = [] :=
  ⟨rfl, rfl⟩

/-- `C6` — with heterogeneous indexers, each output column is padded to
the largest row count: every column of `paddedOutput` has `outputRows`
rows, each in-range prediction stays at its own row index, and rows past
a column's prediction count are zero. -/
theorem padded_output_aligned (cols : List (List Int)) (i r : Nat)
    (hi : i < cols.length) :
    ((paddedOutput cols).getD i []).length = outputRows cols ∧
    (r < (cols.getD i []).length →
      ((paddedOutput cols).getD i []).getD r 0 =
        (cols.getD i []).getD r 0) ∧
    ((cols.getD i []).length ≤ r → r < outputRows cols →
      ((paddedOutput cols).getD i []).getD r 0 = 0) := by
  have hi' : i < (paddedOutput cols).length := by
    simpa [paddedOutput] using hi
  have hcol : (paddedOutput cols).getD i [] =
      paddedColumn (outputRows cols) (cols.getD i []) := by
    rw [List.getD_eq_getElem _ _ hi', List.getD_eq_getElem _ _ hi]
    simp [paddedOutput]
  have hmem : cols.getD i [] ∈ cols := by
    rw [List.getD_eq_getElem _ _ hi]
    exact List.getElem_mem _
  have hlen : (paddedColumn (outputRows cols) (cols.getD i [])).length =
      outputRows cols := by
    simp [paddedColumn]
  have hget : ∀ s : Nat, s < outputRows cols →
      (paddedColumn (outputRows cols) (cols.getD i [])).getD s 0 =
        (cols.getD i []).getD s 0 := by
    intro s hs
    have hs' : s <
        (paddedColumn (outputRows cols) (cols.getD i [])).length := by
      rw [hlen]
      exact hs
    rw [List.getD_eq_getElem _ _ hs']
    simp [paddedColumn]
  refine ⟨by rw [hcol]; exact hlen, ?_, ?_⟩
  · intro hr
    have hs : r < outputRows cols :=
      lt_of_lt_of_le hr (length_le_outputRows cols _ hmem)
    rw [hcol]
    exact hget r hs
  · intro hr hs
    rw [hcol, hget r hs]
    exact List.getD_eq_default _ _ hr

/-- Witness for `C6` at `cols = [[1,2],[3]]`, column `1`: the in-range
prediction `3` stays at row `0` and row `1` is zero-padded. -/
theorem padded_output_aligned_witness :
    ((paddedOutput [[1, 2], [3]]).getD 1 []).getD 0 0 =
      (([[1, 2], [3]] : List (List Int)).getD 1 []).getD 0 0 ∧
    ((paddedOutput [[1, 2], [3]]).getD 1 []).getD 1 0 = 0 :=
  ⟨(padded_output_aligned [[1, 2], [3]] 1 0 (by decide)).2.1 (by decide),
   (padded_output_aligned [[1, 2], [3]] 1 1 (by decide)).2.2
     (by decide) (by decide)⟩

/-- `C7` — under the `threading` backend the job data stays on the parent
process, where the workers can reach it; under `multiprocessing` the data
is memory-mapped, not serialized. -/
theorem backend_data_placement :
    jobDataLocation Backend.threading = DataLocation.parentProcess ∧
    workerCanReach Backend.threading
      (jobDataLocation Backend.threading) = true ∧
    jobDataLocation Backend.multiprocessing = DataLocation.memmap ∧
    jobDataLocation Backend.multiprocessing ≠ DataLocation.serialized := by
  decide

/-- `C8` — in the closing example of `info/_downloads/parallel.py`, the
context manager binds the misspelled name `mananger`, both `stack` calls
in the with-block dispatch to `manager` (the instance whose `clear` ran
at line 189, the first statement of the tail), and `mananger` receives no
call at all, so the context-managed instance is never used. -/
theorem context_manager_example_misspelled :
    withBodyCalls parallelTailStmts =
      [("manager", "stack"), ("manager", "stack")] ∧
    PyStmt.withEnter "mananger" ∈ parallelTailStmts ∧
    "mananger" ∉ calledReceivers parallelTailStmts ∧
    parallelTailStmts.take 1 = [PyStmt.methodCall "manager" "clear"] ∧
    "mananger" ≠ "manager" := by
  decide

/-- `C9` — `layer.py` and `parallel.py` seed numpy's generator with `2`
before sampling `y`, so their targets do not depend on the start-up
entropy and two runs coincide; `learner.py` samples without seeding, so
runs starting from different entropy draw different targets. -/
theorem seeded_scripts_deterministic (e1 e2 : Nat) :
    layerScriptY e1 = layerScriptY e2 ∧
    parallelScriptY e1 = parallelScriptY e2 ∧
    (e1 ≠ e2 → learnerScriptY e1 ≠ learnerScriptY e2) := by
  refine ⟨rfl, rfl, fun hne heq => hne ?_⟩
  have h1 := congrArg (fun l : List Nat => l.getD 0 0) heq
  simpa [learnerScriptY, npRandomRand, List.getD, List.getElem?_map,
    List.getElem?_range] using h1

/-- Witness for `C9`: runs of `learner.py` from entropy `0` and entropy
`1` draw different targets. -/
theorem seeded_scripts_deterministic_witness :
    learnerScriptY 0 ≠ learnerScriptY 1 :=
  (seeded_scripts_deterministic 0 1).2.2 (by decide)

end MLEnsembleDocs
